import Mathlib

/-!
Shallow embedding of the recording core of the podcast-recorder desktop
application (src/apps/desktop/src-tauri/src/recording/): the session state
machine (recorder.rs), the per-participant track pipelines (track.rs) and the
storage layer (storage.rs).

Modelling conventions:
* timestamps are integers (seconds); `chrono` duration `num_seconds` of a
  difference of two such timestamps is plain integer subtraction, and
  `.max(0) as u64` is `Int.toNat`;
* file contents are `List Nat` (byte lists); paths are strings;
* fallible I/O (directory creation, file creation, metadata save, chunk
  write) is driven by explicit boolean oracles, `true` meaning the call
  succeeds;
* a crossbeam channel is the list of messages currently queued, in send
  order; the dedicated worker thread is the function that folds over that
  list exactly as the Rust worker loop does;
* a `HashMap` is an association list; insertion only ever happens after a
  negative membership check, so it appends.
-/

namespace PodcastRecorder

/-- Association-list lookup, first binding for the key. -/
def lookupA {α : Type} (k : String) : List (String × α) → Option α
  | [] => none
  | (k', v) :: rest => if k' = k then some v else lookupA k rest

/-- Association-list update of the first binding for the key. -/
def updateA {α : Type} (k : String) (v : α) : List (String × α) → List (String × α)
  | [] => []
  | (k', v') :: rest => if k' = k then (k', v) :: rest else (k', v') :: updateA k v rest

/-- Association-list insert; callers in this code base insert only after a
negative membership check, and a `HashMap` has no observable order, so we
append. -/
def insertA {α : Type} (k : String) (v : α) (l : List (String × α)) : List (String × α) :=
  l ++ [(k, v)]

/-! ## types.rs -/

/-- Mirror of `RecordingStatus` (types.rs). -/
inductive RecordingStatus where
  | Idle : RecordingStatus
  | Recording (started_at : Int) : RecordingStatus
  | Paused (started_at paused_at : Int) : RecordingStatus
  | Stopped : RecordingStatus
deriving DecidableEq

/-- Status is one of the two active variants. -/
def RecordingStatus.isActive : RecordingStatus → Bool
  | .Recording _ => true
  | .Paused _ _ => true
  | _ => false

/-- The `started_at` component carried by an active status. -/
def statusStarted : RecordingStatus → Option Int
  | .Recording s => some s
  | .Paused s _ => some s
  | _ => none

/-- Mirror of `RecordingConfig` (types.rs). -/
structure RecordingConfig where
  room_id : String
  output_dir : String
  audio_sample_rate : Nat
  audio_channels : Nat
  video_width : Nat
  video_height : Nat
  video_fps : Nat
deriving DecidableEq

/-- Mirror of `ParticipantMetadata` (types.rs). -/
structure ParticipantMetadata where
  id : String
  name : String
  audio_file : Option String
  video_file : Option String
  joined_at : Int
  left_at : Option Int
deriving DecidableEq

/-- Mirror of `RecordingMetadata` (types.rs). -/
structure RecordingMetadata where
  id : String
  room_id : String
  started_at : Int
  stopped_at : Option Int
  duration_seconds : Nat
  participants : List (String × ParticipantMetadata)
  output_directory : String
deriving DecidableEq

/-- Mirror of `RecordingError` (types.rs); the payload of `IoError` is the
underlying `std::io::Error`, irrelevant to every claim, so it is dropped. -/
inductive RecordingError where
  | AlreadyRecording : RecordingError
  | NoActiveRecording : RecordingError
  | ParticipantNotFound (id : String) : RecordingError
  | IoError : RecordingError
  | TrackError (msg : String) : RecordingError
  | InvalidChunkData : RecordingError
  | InvalidConfig (msg : String) : RecordingError
deriving DecidableEq

/-! ## storage.rs -/

/-- Mirror of `sanitize_filename`'s per-character match: the arms
`'a'..='z' | 'A'..='Z' | '0'..='9' | '-' | '_'` keep the character, the
wildcard arm yields an underscore. -/
def sanChar (c : Char) : Char :=
  if ('a' ≤ c ∧ c ≤ 'z') ∨ ('A' ≤ c ∧ c ≤ 'Z') ∨ ('0' ≤ c ∧ c ≤ '9') ∨ c = '-' ∨ c = '_'
  then c else '_'

/-- Mirror of `sanitize_filename` (storage.rs): map `sanChar` over the
characters of the name. -/
def sanitize_filename (name : String) : String :=
  ⟨name.data.map sanChar⟩

/-- Mirror of `StorageManager` (storage.rs). -/
structure StorageManager where
  output_dir : String
  recording_id : String
deriving DecidableEq

/-- Mirror of `StorageManager::new`: builds the recording id from the room id
and the formatted timestamp, joins it onto the base directory, and creates the
directory on disk (`dirOk` is the success of `fs::create_dir_all`). -/
def StorageManager.new (dirOk : Bool) (ts : String) (base_dir room_id : String) :
    Except RecordingError StorageManager :=
  let recording_id := "recording-" ++ room_id ++ "-" ++ ts
  let output_dir := base_dir ++ "/" ++ recording_id
  if dirOk then .ok { output_dir := output_dir, recording_id := recording_id }
  else .error .IoError

/-- Mirror of `AudioFileWriter` (storage.rs); `fileBytes` is the content of
the open file. -/
structure AudioFileWriter where
  path : String
  fileBytes : List Nat
  chunk_count : Nat
deriving DecidableEq

/-- Mirror of `VideoFileWriter` (storage.rs). -/
structure VideoFileWriter where
  path : String
  fileBytes : List Nat
  chunk_count : Nat
deriving DecidableEq

/-- Mirror of `StorageManager::create_audio_file`; `ok` is the success of
`File::create`. -/
def StorageManager.create_audio_file (sm : StorageManager) (ok : Bool)
    (participant_id participant_name : String) (_config : RecordingConfig) :
    Except RecordingError AudioFileWriter :=
  let filename := participant_id ++ "-" ++ sanitize_filename participant_name ++ "-audio.webm"
  if ok then .ok { path := sm.output_dir ++ "/" ++ filename, fileBytes := [], chunk_count := 0 }
  else .error .IoError

/-- Mirror of `StorageManager::create_video_file`. -/
def StorageManager.create_video_file (sm : StorageManager) (ok : Bool)
    (participant_id participant_name : String) :
    Except RecordingError VideoFileWriter :=
  let filename := participant_id ++ "-" ++ sanitize_filename participant_name ++ "-video.webm"
  if ok then .ok { path := sm.output_dir ++ "/" ++ filename, fileBytes := [], chunk_count := 0 }
  else .error .IoError

/-- Mirror of `StorageManager::save_metadata`; serialization cannot fail on
this data, `ok` is the success of `fs::write`. -/
def StorageManager.save_metadata (_sm : StorageManager) (ok : Bool)
    (_metadata : RecordingMetadata) : Except RecordingError Unit :=
  if ok then .ok () else .error .IoError

/-- Mirror of `AudioFileWriter::write_chunk`; `ok` is the success of
`write_all`, and `chunk_count` increments only after a successful write. -/
def AudioFileWriter.write_chunk (w : AudioFileWriter) (ok : Bool) (chunk : List Nat) :
    Except RecordingError AudioFileWriter :=
  if ok then .ok { w with fileBytes := w.fileBytes ++ chunk, chunk_count := w.chunk_count + 1 }
  else .error .IoError

/-- Mirror of `VideoFileWriter::write_chunk`. -/
def VideoFileWriter.write_chunk (w : VideoFileWriter) (ok : Bool) (chunk : List Nat) :
    Except RecordingError VideoFileWriter :=
  if ok then .ok { w with fileBytes := w.fileBytes ++ chunk, chunk_count := w.chunk_count + 1 }
  else .error .IoError

/-! ## track.rs -/

/-- Mirror of `TrackMessage` (track.rs). -/
inductive TrackMessage where
  | AudioChunk (c : List Nat) : TrackMessage
  | VideoChunk (c : List Nat) : TrackMessage
  | Stop : TrackMessage
deriving DecidableEq

/-- Mirror of `TrackStats` (track.rs). -/
structure TrackStats where
  audio_chunks_received : Nat := 0
  video_chunks_received : Nat := 0
  audio_bytes_written : Nat := 0
  video_bytes_written : Nat := 0
  errors : List String := []
deriving DecidableEq

/-- Mirror of `TrackRecorder` (track.rs): a sender/thread pair exists per
media kind exactly when a writer was handed to `new`; the queue field is the
channel content in send order. -/
structure TrackRecorder where
  participant_id : String
  audioQueue : Option (List (List Nat))
  videoQueue : Option (List (List Nat))
  stats : TrackStats
deriving DecidableEq

/-- Mirror of `TrackRecorder::new`: spawns an audio (resp. video) pipeline
with an empty channel iff the corresponding writer is provided; stats start
at their defaults. -/
def TrackRecorder.new (participant_id _participant_name : String)
    (_config : RecordingConfig) (audio_writer : Option AudioFileWriter)
    (video_writer : Option VideoFileWriter) : TrackRecorder :=
  { participant_id := participant_id
    audioQueue := audio_writer.map (fun _ => [])
    videoQueue := video_writer.map (fun _ => [])
    stats := {} }

/-- Mirror of `TrackRecorder::add_audio_chunk`: if the audio pipeline exists,
enqueue the chunk and bump the received counter; otherwise silently succeed. -/
def TrackRecorder.add_audio_chunk (chunk : List Nat) (t : TrackRecorder) :
    TrackRecorder × Except RecordingError Unit :=
  match t.audioQueue with
  | some q =>
      ({ t with audioQueue := some (q ++ [chunk])
                stats := { t.stats with
                  audio_chunks_received := t.stats.audio_chunks_received + 1 } }, .ok ())
  | none => (t, .ok ())

/-- Mirror of `TrackRecorder::add_video_chunk`. -/
def TrackRecorder.add_video_chunk (chunk : List Nat) (t : TrackRecorder) :
    TrackRecorder × Except RecordingError Unit :=
  match t.videoQueue with
  | some q =>
      ({ t with videoQueue := some (q ++ [chunk])
                stats := { t.stats with
                  video_chunks_received := t.stats.video_chunks_received + 1 } }, .ok ())
  | none => (t, .ok ())

/-- Mirror of `TrackRecorder::audio_recording_loop`: drain the channel in
order; on an audio chunk attempt the write (success of write `i` given by the
oracle `writeOk i`), recording the byte count on success and an error message
on failure; break on `Stop` or on channel closure (empty list); ignore other
messages. The final writer stands for the finalized file. -/
def audio_recording_loop (writeOk : Nat → Bool) :
    List TrackMessage → AudioFileWriter → TrackStats → Nat → AudioFileWriter × TrackStats
  | [], w, s, _ => (w, s)
  | TrackMessage.AudioChunk c :: rest, w, s, i =>
      match w.write_chunk (writeOk i) c with
      | .ok w' =>
          audio_recording_loop writeOk rest w'
            { s with audio_bytes_written := s.audio_bytes_written + c.length } (i + 1)
      | .error _ =>
          audio_recording_loop writeOk rest w
            { s with errors := s.errors ++ ["Audio write error"] } (i + 1)
  | TrackMessage.Stop :: _, w, s, _ => (w, s)
  | TrackMessage.VideoChunk _ :: rest, w, s, i => audio_recording_loop writeOk rest w s i

/-- Mirror of `TrackRecorder::video_recording_loop`. -/
def video_recording_loop (writeOk : Nat → Bool) :
    List TrackMessage → VideoFileWriter → TrackStats → Nat → VideoFileWriter × TrackStats
  | [], w, s, _ => (w, s)
  | TrackMessage.VideoChunk c :: rest, w, s, i =>
      match w.write_chunk (writeOk i) c with
      | .ok w' =>
          video_recording_loop writeOk rest w'
            { s with video_bytes_written := s.video_bytes_written + c.length } (i + 1)
      | .error _ =>
          video_recording_loop writeOk rest w
            { s with errors := s.errors ++ ["Video write error"] } (i + 1)
  | TrackMessage.Stop :: _, w, s, _ => (w, s)
  | TrackMessage.AudioChunk _ :: rest, w, s, i => video_recording_loop writeOk rest w s i

/-- Outcome of `JoinHandle::join` on a worker thread: either the thread
panicked, or it finished with the value the loop returned (on a normal run,
`Ok` of the finalized file path). -/
inductive JoinOutcome where
  | panicked : JoinOutcome
  | finished (r : Except RecordingError String) : JoinOutcome

/-- Mirror of `TrackRecordingResult` (track.rs). -/
structure TrackRecordingResult where
  participant_id : String
  audio_file : Option String
  video_file : Option String
  stats : TrackStats
deriving DecidableEq

/-- Mirror of `TrackRecorder::stop`: send `Stop` to each active queue
(best-effort, a failed send is ignored and unobservable here), then join the
audio thread first and the video thread second; a panicked join becomes a
`TrackError` and aborts before the next join; a thread that exists iff the
corresponding queue exists. On success, return the id, the resolved paths and
a snapshot of the stats. -/
def TrackRecorder.stop (audioJoin videoJoin : JoinOutcome) (t : TrackRecorder) :
    Except RecordingError TrackRecordingResult :=
  let audioRes : Except RecordingError (Option String) :=
    match t.audioQueue with
    | some _ =>
        match audioJoin with
        | .panicked => .error (.TrackError "Audio thread panicked")
        | .finished r => match r with | .ok p => .ok (some p) | .error e => .error e
    | none => .ok none
  match audioRes with
  | .error e => .error e
  | .ok audio_file =>
      let videoRes : Except RecordingError (Option String) :=
        match t.videoQueue with
        | some _ =>
            match videoJoin with
            | .panicked => .error (.TrackError "Video thread panicked")
            | .finished r => match r with | .ok p => .ok (some p) | .error e => .error e
        | none => .ok none
      match videoRes with
      | .error e => .error e
      | .ok video_file =>
          .ok { participant_id := t.participant_id
                audio_file := audio_file
                video_file := video_file
                stats := t.stats }

/-! ## recorder.rs -/

/-- Mirror of `RecordingState` (recorder.rs). -/
structure RecordingState where
  status : RecordingStatus
  config : Option RecordingConfig
  storage : Option StorageManager
  tracks : List (String × TrackRecorder)
  metadata : Option RecordingMetadata
  recording_id : Option String
deriving DecidableEq

/-- Mirror of `RecordingManager::new`. -/
def initialState : RecordingState :=
  { status := .Idle
    config := none
    storage := none
    tracks := []
    metadata := none
    recording_id := none }

namespace RecordingManager

/-- Mirror of `RecordingManager::start_recording`: requires `Idle`, else
`AlreadyRecording`; creates the storage manager (timestamp `ts`, success of
directory creation `dirOk`), initializes metadata, and moves to
`Recording`. Both `Utc::now()` calls of the source happen within the same
call, modelled by the single `now`. The mutated state is returned alongside
the call's result. -/
def start_recording (dirOk : Bool) (now : Int) (ts : String) (config : RecordingConfig)
    (st : RecordingState) : RecordingState × Except RecordingError String :=
  match st.status with
  | .Idle =>
      match StorageManager.new dirOk ts config.output_dir config.room_id with
      | .error e => (st, .error e)
      | .ok storage =>
          let recording_id := storage.recording_id
          let metadata : RecordingMetadata :=
            { id := recording_id
              room_id := config.room_id
              started_at := now
              stopped_at := none
              duration_seconds := 0
              participants := []
              output_directory := storage.output_dir }
          ({ st with status := .Recording now
                     config := some config
                     storage := some storage
                     metadata := some metadata
                     recording_id := some recording_id },
           .ok recording_id)
  | _ => (st, .error .AlreadyRecording)

/-- Mirror of `RecordingManager::add_participant`: requires an active status;
an id that already has a track is a no-op success; otherwise create the
requested writers (successes `audioOk`, `videoOk`), build the track recorder,
record the participant metadata entry, and insert the track. -/
def add_participant (audioOk videoOk : Bool) (now : Int)
    (participant_id participant_name : String) (record_audio record_video : Bool)
    (st : RecordingState) : RecordingState × Except RecordingError Unit :=
  match st.status with
  | .Idle => (st, .error .NoActiveRecording)
  | .Stopped => (st, .error .NoActiveRecording)
  | _ =>
      if (lookupA participant_id st.tracks).isSome then (st, .ok ())
      else
        match st.config with
        | none => (st, .error .NoActiveRecording)
        | some config =>
            match st.storage with
            | none => (st, .error .NoActiveRecording)
            | some storage =>
                let awRes : Except RecordingError (Option AudioFileWriter) :=
                  if record_audio then
                    (storage.create_audio_file audioOk participant_id participant_name
                      config).map some
                  else .ok none
                match awRes with
                | .error e => (st, .error e)
                | .ok audio_writer =>
                    let vwRes : Except RecordingError (Option VideoFileWriter) :=
                      if record_video then
                        (storage.create_video_file videoOk participant_id
                          participant_name).map some
                      else .ok none
                    match vwRes with
                    | .error e => (st, .error e)
                    | .ok video_writer =>
                        let track := TrackRecorder.new participant_id participant_name
                          config audio_writer video_writer
                        let pm : ParticipantMetadata :=
                          { id := participant_id
                            name := participant_name
                            audio_file := none
                            video_file := none
                            joined_at := now
                            left_at := none }
                        let metadata' := st.metadata.map (fun md =>
                          { md with participants := insertA participant_id pm md.participants })
                        ({ st with metadata := metadata'
                                   tracks := insertA participant_id track st.tracks },
                         .ok ())

/-- Mirror of `RecordingManager::add_audio_chunk`: look the track up, else
`ParticipantNotFound`; forward to the track's enqueue (whose mutation of the
shared channel and stats is reflected back into the map). -/
def add_audio_chunk (participant_id : String) (chunk : List Nat) (st : RecordingState) :
    RecordingState × Except RecordingError Unit :=
  match lookupA participant_id st.tracks with
  | none => (st, .error (.ParticipantNotFound participant_id))
  | some track =>
      match TrackRecorder.add_audio_chunk chunk track with
      | (track', .ok _) => ({ st with tracks := updateA participant_id track' st.tracks }, .ok ())
      | (_, .error e) => (st, .error e)

/-- Mirror of `RecordingManager::add_video_chunk`. -/
def add_video_chunk (participant_id : String) (chunk : List Nat) (st : RecordingState) :
    RecordingState × Except RecordingError Unit :=
  match lookupA participant_id st.tracks with
  | none => (st, .error (.ParticipantNotFound participant_id))
  | some track =>
      match TrackRecorder.add_video_chunk chunk track with
      | (track', .ok _) => ({ st with tracks := updateA participant_id track' st.tracks }, .ok ())
      | (_, .error e) => (st, .error e)

/-- Merge the collected track results into the metadata, exactly as the
result loop of `stop_recording` does: for each result whose participant is
present, set the resolved file paths and the leave timestamp. -/
def merge_track_results (now : Int) (results : List TrackRecordingResult)
    (md : RecordingMetadata) : RecordingMetadata :=
  results.foldl (fun md r =>
    match lookupA r.participant_id md.participants with
    | some p =>
        let p' := { p with audio_file := r.audio_file
                           video_file := r.video_file
                           left_at := some now }
        { md with participants := updateA r.participant_id p' md.participants }
    | none => md) md

/-- Mirror of `RecordingManager::stop_recording`: requires an active status;
takes the tracks out of the state, stops each one (join outcomes given by
`joins`, a failed track stop is logged and skipped), takes the metadata,
stamps it, merges the track results, saves it (success `saveOk`) and only
then clears status/config/storage. Mutations made before a failure point
persist, as they do in the source under its write lock. -/
def stop_recording (saveOk : Bool) (joins : String → JoinOutcome × JoinOutcome) (now : Int)
    (st : RecordingState) : RecordingState × Except RecordingError RecordingMetadata :=
  match st.status with
  | .Idle => (st, .error .NoActiveRecording)
  | .Stopped => (st, .error .NoActiveRecording)
  | _ =>
      let started_at : Int :=
        match st.status with
        | .Recording s => s
        | .Paused s _ => s
        | _ => now
      let duration : Nat := (now - started_at).toNat
      let tracks := st.tracks
      let st1 := { st with tracks := [] }
      let track_results : List TrackRecordingResult :=
        tracks.filterMap (fun p =>
          match TrackRecorder.stop (joins p.1).1 (joins p.1).2 p.2 with
          | .ok r => some r
          | .error _ => none)
      match st1.metadata with
      | none => (st1, .error .NoActiveRecording)
      | some md0 =>
          let st2 := { st1 with metadata := none }
          let md1 := { md0 with stopped_at := some now, duration_seconds := duration }
          let md2 := merge_track_results now track_results md1
          match st2.storage with
          | some storage =>
              match storage.save_metadata saveOk md2 with
              | .error e => (st2, .error e)
              | .ok _ =>
                  ({ st2 with status := .Stopped, config := none, storage := none }, .ok md2)
          | none =>
              ({ st2 with status := .Stopped, config := none, storage := none }, .ok md2)

/-- Mirror of `RecordingManager::get_status`. -/
def get_status (st : RecordingState) : RecordingStatus :=
  st.status

/-- Mirror of `RecordingManager::get_recording_id`. -/
def get_recording_id (st : RecordingState) : Option String :=
  st.recording_id

/-- Mirror of `RecordingManager::get_metadata`. -/
def get_metadata (st : RecordingState) : Option RecordingMetadata :=
  st.metadata

/-- Mirror of `RecordingManager::pause_recording`: only from `Recording`. -/
def pause_recording (now : Int) (st : RecordingState) :
    RecordingState × Except RecordingError Unit :=
  match st.status with
  | .Recording s => ({ st with status := .Paused s now }, .ok ())
  | _ => (st, .error .NoActiveRecording)

/-- Mirror of `RecordingManager::resume_recording`: only from `Paused`,
restoring `Recording` with the original start time. -/
def resume_recording (st : RecordingState) : RecordingState × Except RecordingError Unit :=
  match st.status with
  | .Paused s _ => ({ st with status := .Recording s }, .ok ())
  | _ => (st, .error .NoActiveRecording)

end RecordingManager

/-- One public operation of the session manager, with its I/O oracles and
clock values. -/
inductive Op where
  | start (dirOk : Bool) (now : Int) (ts : String) (cfg : RecordingConfig) : Op
  | addParticipant (audioOk videoOk : Bool) (now : Int) (pid name : String)
      (ra rv : Bool) : Op
  | ingestAudio (pid : String) (chunk : List Nat) : Op
  | ingestVideo (pid : String) (chunk : List Nat) : Op
  | pause (now : Int) : Op
  | resume : Op
  | stop (saveOk : Bool) (joins : String → JoinOutcome × JoinOutcome) (now : Int) : Op

/-- State reached after one public operation (the operation's return value is
dropped; each operation already returns its post-state first). -/
def run (op : Op) (st : RecordingState) : RecordingState :=
  match op with
  | .start dirOk now ts cfg => (RecordingManager.start_recording dirOk now ts cfg st).1
  | .addParticipant aOk vOk now pid name ra rv =>
      (RecordingManager.add_participant aOk vOk now pid name ra rv st).1
  | .ingestAudio pid chunk => (RecordingManager.add_audio_chunk pid chunk st).1
  | .ingestVideo pid chunk => (RecordingManager.add_video_chunk pid chunk st).1
  | .pause now => (RecordingManager.pause_recording now st).1
  | .resume => (RecordingManager.resume_recording st).1
  | .stop saveOk joins now => (RecordingManager.stop_recording saveOk joins now st).1

/-- States reachable from a fresh manager through the public operations. -/
inductive Reachable : RecordingState → Prop where
  | init : Reachable initialState
  | step {st : RecordingState} (h : Reachable st) (op : Op) : Reachable (run op st)

/-- The operation is a pause or a resume. -/
def Op.isPauseResume : Op → Bool
  | .pause _ => true
  | .resume => true
  | _ => false

/-- Fold `ingestAudio` over a list of chunks on one track recorder, in order. -/
def ingestAll (chunks : List (List Nat)) (t : TrackRecorder) : TrackRecorder :=
  chunks.foldl (fun t c => (TrackRecorder.add_audio_chunk c t).1) t

/-- The character class the specification allows in sanitized filenames,
written independently of the code: ASCII letters, digits, underscore,
hyphen. -/
def isSafeChar (c : Char) : Prop :=
  ('A' ≤ c ∧ c ≤ 'Z') ∨ ('a' ≤ c ∧ c ≤ 'z') ∨ ('0' ≤ c ∧ c ≤ '9') ∨ c = '_' ∨ c = '-'

instance (c : Char) : Decidable (isSafeChar c) := by
  unfold isSafeChar; infer_instance

/-! ## Concrete sample session, used to instantiate the theorems below -/

/-- Sample configuration: room `r1`, output root `/tmp`, default media
parameters. -/
def cfgC : RecordingConfig :=
  { room_id := "r1", output_dir := "/tmp", audio_sample_rate := 48000,
    audio_channels := 2, video_width := 1920, video_height := 1080, video_fps := 30 }

/-- Sample join outcomes: every worker thread finishes normally, the audio
thread resolving path `a` and the video thread path `v`. -/
def joins0 : String → JoinOutcome × JoinOutcome :=
  fun _ => (.finished (.ok "a"), .finished (.ok "v"))

/-- Sample state: fresh manager after a successful `start` at time 0. -/
def stA : RecordingState := run (.start true 0 "ts" cfgC) initialState

/-- Sample state: `stA` after adding audio-only participant `p1` at time 1. -/
def stB : RecordingState := run (.addParticipant true true 1 "p1" "Alice" true false) stA

/-- Sample state: `stB` after a `stop` at time 5 whose metadata save failed. -/
def stC : RecordingState := run (.stop false joins0 5) stB

/-- The track recorder held for participant `p1` in `stB`: an audio-only
pipeline with an empty channel and fresh stats. -/
def tP1 : TrackRecorder :=
  { participant_id := "p1", audioQueue := some [], videoQueue := none, stats := {} }

/-- The metadata returned by a successful `stop` of `stB` at time 7 with the
sample join outcomes. -/
def mdW : RecordingMetadata :=
  match (RecordingManager.stop_recording true joins0 7 stB).2 with
  | .ok m => m
  | .error _ =>
      { id := "", room_id := "", started_at := 0, stopped_at := none,
        duration_seconds := 0, participants := [], output_directory := "" }

/-! ## Helper lemmas -/

theorem lookupA_updateA_self {α : Type} (k : String) (v : α) :
    ∀ l : List (String × α), lookupA k l = some v → updateA k v l = l := by
  intro l
  induction l with
  | nil => intro h; simp [lookupA] at h
  | cons p rest ih =>
      intro h
      obtain ⟨k', v'⟩ := p
      by_cases hk : k' = k
      · subst hk
        simp [lookupA] at h
        simp [updateA, h]
      · simp [lookupA, hk] at h
        simp [updateA, hk, ih h]

theorem sanChar_eq (c : Char) :
    sanChar c = if isSafeChar c then c else '_' := by
  simp only [sanChar, isSafeChar]
  split_ifs with h₁ h₂ h₃ <;> first | rfl | tauto

theorem sanChar_safe (c : Char) : isSafeChar (sanChar c) := by
  rw [sanChar_eq]
  split_ifs with h
  · exact h
  · unfold isSafeChar; tauto

/-- C9: `sanitize` is total and deterministic (it is a Lean function); it
preserves the character count, keeps each character of the class
`[A-Za-z0-9_-]` unchanged, maps every other character to an underscore, and
therefore produces only characters of that class. -/
theorem sanitize_spec (s : String) :
    (sanitize_filename s).length = s.length ∧
    (∀ c, c ∈ (sanitize_filename s).data → isSafeChar c) ∧
    (∀ (i : Nat) (c : Char), s.data[i]? = some c →
        (sanitize_filename s).data[i]? = some (if isSafeChar c then c else '_')) := by
  refine ⟨?_, ?_, ?_⟩
  · simp only [sanitize_filename, String.length, List.length_map]
  · intro c hc
    simp only [sanitize_filename] at hc
    obtain ⟨a, _, rfl⟩ := List.mem_map.mp hc
    exact sanChar_safe a
  · intro i c hc
    simp [sanitize_filename, List.getElem?_map, hc, sanChar_eq]

/-- Witness for C9 at the input string of the repository's own unit test. -/
theorem sanitize_spec_witness :
    ("John Doe".data[4]? = some ' ') ∧
    (sanitize_filename "John Doe").data[4]? = some (if isSafeChar ' ' then ' ' else '_') :=
  ⟨by decide, (sanitize_spec "John Doe").2.2 4 ' ' (by decide)⟩

/-- C8: `TrackRecorder::stop` joins the audio worker before the video
worker. A panicked audio join yields the audio `TrackError` whatever the
video worker did — its result is never collected; a panicked video join
after a clean audio join yields the video `TrackError`; when both joins
finish cleanly, the result carries the participant id, the resolved path per
existing pipeline, and the stats snapshot. The preceding `Stop` sends are
best-effort and their failures are ignored, hence unobservable. -/
theorem track_stop_spec :
    (∀ (t : TrackRecorder) (vj : JoinOutcome), t.audioQueue.isSome = true →
        TrackRecorder.stop .panicked vj t = .error (.TrackError "Audio thread panicked")) ∧
    (∀ (t : TrackRecorder) (pa : String), t.videoQueue.isSome = true →
        TrackRecorder.stop (.finished (.ok pa)) .panicked t =
          .error (.TrackError "Video thread panicked")) ∧
    (∀ (t : TrackRecorder) (pa pv : String),
        TrackRecorder.stop (.finished (.ok pa)) (.finished (.ok pv)) t =
          .ok { participant_id := t.participant_id
                audio_file := if t.audioQueue.isSome then some pa else none
                video_file := if t.videoQueue.isSome then some pv else none
                stats := t.stats }) := by
  refine ⟨?_, ?_, ?_⟩
  · intro t vj h
    cases ha : t.audioQueue with
    | none => rw [ha] at h; simp at h
    | some q => simp [TrackRecorder.stop, ha]
  · intro t pa h
    cases hv : t.videoQueue with
    | none => rw [hv] at h; simp at h
    | some q => cases ha : t.audioQueue <;> simp [TrackRecorder.stop, ha, hv]
  · intro t pa pv
    cases ha : t.audioQueue <;> cases hv : t.videoQueue <;>
      simp [TrackRecorder.stop, ha, hv]

/-- Witness for C8 on a concrete audio+video track: the video join outcome
(a successful finish) is discarded when the audio join panicked. -/
theorem track_stop_spec_witness :
    (TrackRecorder.new "p1" "Alice" cfgC
        (some { path := "a", fileBytes := [], chunk_count := 0 })
        (some { path := "v", fileBytes := [], chunk_count := 0 })).audioQueue.isSome = true ∧
    TrackRecorder.stop .panicked (.finished (.ok "v"))
        (TrackRecorder.new "p1" "Alice" cfgC
          (some { path := "a", fileBytes := [], chunk_count := 0 })
          (some { path := "v", fileBytes := [], chunk_count := 0 })) =
      .error (.TrackError "Audio thread panicked") :=
  ⟨by decide, track_stop_spec.1
      (TrackRecorder.new "p1" "Alice" cfgC
        (some { path := "a", fileBytes := [], chunk_count := 0 })
        (some { path := "v", fileBytes := [], chunk_count := 0 }))
      (.finished (.ok "v")) (by decide)⟩

theorem ingestAll_queue (chunks : List (List Nat)) :
    ∀ (t : TrackRecorder) (q : List (List Nat)), t.audioQueue = some q →
      (ingestAll chunks t).audioQueue = some (q ++ chunks) ∧
      (ingestAll chunks t).stats.audio_chunks_received
        = t.stats.audio_chunks_received + chunks.length ∧
      (ingestAll chunks t).stats.audio_bytes_written = t.stats.audio_bytes_written := by
  induction chunks with
  | nil => intro t q h; simp [ingestAll, h]
  | cons c cs ih =>
      intro t q h
      have hstep : (TrackRecorder.add_audio_chunk c t).1
          = { t with audioQueue := some (q ++ [c])
                     stats := { t.stats with
                       audio_chunks_received := t.stats.audio_chunks_received + 1 } } := by
        simp [TrackRecorder.add_audio_chunk, h]
      have this := ih ((TrackRecorder.add_audio_chunk c t).1) (q ++ [c]) (by rw [hstep])
      simp only [ingestAll, List.foldl_cons] at *
      refine ⟨?_, ?_, ?_⟩
      · rw [this.1]; simp
      · rw [this.2.1, hstep]
        simp only [List.length_cons]
        omega
      · rw [this.2.2, hstep]

theorem audio_loop_allok (writeOk : Nat → Bool) (hok : ∀ i, writeOk i = true) :
    ∀ (chunks : List (List Nat)) (w : AudioFileWriter) (s : TrackStats) (i : Nat),
      (audio_recording_loop writeOk
          (chunks.map TrackMessage.AudioChunk ++ [TrackMessage.Stop]) w s i).1.fileBytes
        = w.fileBytes ++ chunks.join ∧
      (audio_recording_loop writeOk
          (chunks.map TrackMessage.AudioChunk ++ [TrackMessage.Stop]) w s i).2.audio_bytes_written
        = s.audio_bytes_written + (chunks.map List.length).sum := by
  intro chunks
  induction chunks with
  | nil => intro w s i; simp [audio_recording_loop]
  | cons c cs ih =>
      intro w s i
      simp only [List.map_cons, List.cons_append, audio_recording_loop,
        AudioFileWriter.write_chunk, hok i, if_true, List.append_eq]
      constructor
      · rw [(ih _ _ (i + 1)).1]; simp
      · rw [(ih _ _ (i + 1)).2]; simp [Nat.add_assoc]

/-- C1: on a track created with an audio pipeline, ingesting `chunks` in
order and then stopping leaves the channel holding exactly `chunks` in
enqueue order, and the audio worker — provided every file write succeeds —
writes exactly their concatenation into the (initially empty) file, whose
byte length then equals the sum of the chunk lengths, which is also the
final `audio_bytes_written` of the stats. -/
theorem audio_track_bytes_exact (pid name : String) (cfg : RecordingConfig)
    (w : AudioFileWriter) (chunks : List (List Nat)) (writeOk : Nat → Bool)
    (hok : ∀ i, writeOk i = true) (hw : w.fileBytes = []) :
    (ingestAll chunks (TrackRecorder.new pid name cfg (some w) none)).audioQueue
        = some chunks ∧
    (ingestAll chunks (TrackRecorder.new pid name cfg (some w) none)).stats.audio_chunks_received
        = chunks.length ∧
    (audio_recording_loop writeOk (chunks.map TrackMessage.AudioChunk ++ [TrackMessage.Stop]) w
        (ingestAll chunks (TrackRecorder.new pid name cfg (some w) none)).stats 0).1.fileBytes
        = chunks.join ∧
    (audio_recording_loop writeOk (chunks.map TrackMessage.AudioChunk ++ [TrackMessage.Stop]) w
        (ingestAll chunks (TrackRecorder.new pid name cfg (some w) none)).stats 0).1.fileBytes.length
        = (chunks.map List.length).sum ∧
    (audio_recording_loop writeOk (chunks.map TrackMessage.AudioChunk ++ [TrackMessage.Stop]) w
        (ingestAll chunks
          (TrackRecorder.new pid name cfg (some w) none)).stats 0).2.audio_bytes_written
        = (chunks.map List.length).sum := by
  have hnew : (TrackRecorder.new pid name cfg (some w) none).audioQueue = some [] := rfl
  have hq := ingestAll_queue chunks _ [] hnew
  have hrecv : (TrackRecorder.new pid name cfg (some w) none).stats.audio_chunks_received
      = 0 := rfl
  have hbytes : (TrackRecorder.new pid name cfg (some w) none).stats.audio_bytes_written
      = 0 := rfl
  have hloop := audio_loop_allok writeOk hok chunks w
    (ingestAll chunks (TrackRecorder.new pid name cfg (some w) none)).stats 0
  refine ⟨by simpa using hq.1, by rw [hq.2.1, hrecv, Nat.zero_add], ?_, ?_, ?_⟩
  · rw [hloop.1, hw]; simp
  · rw [hloop.1, hw]; simp [List.length_join]
  · rw [hloop.2, hq.2.2, hbytes, Nat.zero_add]

/-- Witness for C1: three 3-byte chunks, every write succeeding. -/
theorem audio_track_bytes_exact_witness :
    (∀ i : Nat, (fun _ : Nat => true) i = true) ∧
    (({ path := "a", fileBytes := [], chunk_count := 0 } : AudioFileWriter).fileBytes
        = ([] : List Nat)) ∧
    (audio_recording_loop (fun _ => true)
        ([[1, 2, 3], [1, 2, 3], [1, 2, 3]].map TrackMessage.AudioChunk ++ [TrackMessage.Stop])
        { path := "a", fileBytes := [], chunk_count := 0 }
        (ingestAll [[1, 2, 3], [1, 2, 3], [1, 2, 3]]
          (TrackRecorder.new "p1" "Alice" cfgC
            (some { path := "a", fileBytes := [], chunk_count := 0 }) none)).stats
        0).1.fileBytes.length
      = ([[1, 2, 3], [1, 2, 3], [1, 2, 3]].map List.length).sum :=
  ⟨fun _ => rfl, rfl,
    (audio_track_bytes_exact "p1" "Alice" cfgC
      { path := "a", fileBytes := [], chunk_count := 0 }
      [[1, 2, 3], [1, 2, 3], [1, 2, 3]] (fun _ => true)
      (fun _ => rfl) rfl).2.2.2.1⟩

/-- C5: re-adding an id that already has a track while the session is active
(status `Recording` or `Paused`) returns success and leaves the whole session
state — tracks map, metadata, everything — untouched, whatever the name and
media flags of the second call. -/
theorem add_participant_idempotent (audioOk videoOk : Bool) (now : Int)
    (pid name : String) (record_audio record_video : Bool) (st : RecordingState)
    (hactive : st.status.isActive = true)
    (hmem : (lookupA pid st.tracks).isSome = true) :
    RecordingManager.add_participant audioOk videoOk now pid name record_audio record_video st
      = (st, .ok ()) := by
  unfold RecordingManager.add_participant
  cases hst : st.status <;> rw [hst] at hactive <;>
    simp [RecordingStatus.isActive] at hactive <;> simp [hmem]

/-- Witness for C5: a second add of `p1` to the sample session, with a
different name and different media flags, is the identity. -/
theorem add_participant_idempotent_witness :
    stB.status.isActive = true ∧ (lookupA "p1" stB.tracks).isSome = true ∧
    RecordingManager.add_participant false false 3 "p1" "Bob" false true stB
      = (stB, .ok ()) :=
  ⟨by decide, by decide,
    add_participant_idempotent false false 3 "p1" "Bob" false true stB
      (by decide) (by decide)⟩

/-- C6: chunk ingestion fails, with `ParticipantNotFound` of the requested
id, exactly when no track exists for that id; when the track exists the call
succeeds, and when the track lacks the requested media pipeline the call is a
no-op success: nothing is enqueued, no counter moves, the state is returned
unchanged (no writer of that kind was ever created for such a track). -/
theorem ingest_spec (pid : String) (chunk : List Nat) (st : RecordingState) :
    (lookupA pid st.tracks = none →
        RecordingManager.add_audio_chunk pid chunk st
            = (st, .error (.ParticipantNotFound pid)) ∧
        RecordingManager.add_video_chunk pid chunk st
            = (st, .error (.ParticipantNotFound pid))) ∧
    (∀ t, lookupA pid st.tracks = some t →
        (RecordingManager.add_audio_chunk pid chunk st).2 = .ok () ∧
        (RecordingManager.add_video_chunk pid chunk st).2 = .ok ()) ∧
    (∀ t, lookupA pid st.tracks = some t → t.audioQueue = none →
        RecordingManager.add_audio_chunk pid chunk st = (st, .ok ())) ∧
    (∀ t, lookupA pid st.tracks = some t → t.videoQueue = none →
        RecordingManager.add_video_chunk pid chunk st = (st, .ok ())) := by
  refine ⟨?_, ?_, ?_, ?_⟩
  · intro h
    constructor <;> simp [RecordingManager.add_audio_chunk,
      RecordingManager.add_video_chunk, h]
  · intro t h
    constructor
    · simp only [RecordingManager.add_audio_chunk, h]
      cases hq : t.audioQueue <;> simp [TrackRecorder.add_audio_chunk, hq]
    · simp only [RecordingManager.add_video_chunk, h]
      cases hq : t.videoQueue <;> simp [TrackRecorder.add_video_chunk, hq]
  · intro t h hq
    simp only [RecordingManager.add_audio_chunk, h, TrackRecorder.add_audio_chunk, hq]
    rw [lookupA_updateA_self pid t st.tracks h]
  · intro t h hq
    simp only [RecordingManager.add_video_chunk, h, TrackRecorder.add_video_chunk, hq]
    rw [lookupA_updateA_self pid t st.tracks h]

/-- Witness for C6: ingesting video for the audio-only participant of the
sample session is a silent no-op, and ingesting for an unknown id fails with
`ParticipantNotFound` of that id. -/
theorem ingest_spec_witness :
    (lookupA "nope" stB.tracks = none ∧
      RecordingManager.add_audio_chunk "nope" [1] stB
        = (stB, .error (.ParticipantNotFound "nope"))) ∧
    (lookupA "p1" stB.tracks = some tP1 ∧ tP1.videoQueue = none ∧
      RecordingManager.add_video_chunk "p1" [1, 2, 3] stB = (stB, .ok ())) := by
  constructor
  · exact ⟨by decide, ((ingest_spec "nope" [1] stB).1 (by decide)).1⟩
  · exact ⟨by decide, by decide,
      (ingest_spec "p1" [1, 2, 3] stB).2.2.2 tP1 (by decide) (by decide)⟩

theorem start_err_of_not_idle (dirOk : Bool) (now : Int) (ts : String)
    (cfg : RecordingConfig) (st : RecordingState) (h : st.status ≠ .Idle) :
    RecordingManager.start_recording dirOk now ts cfg st = (st, .error .AlreadyRecording) := by
  unfold RecordingManager.start_recording
  cases hst : st.status <;> simp_all

theorem start_unchanged_or_ok (dirOk : Bool) (now : Int) (ts : String)
    (cfg : RecordingConfig) (st : RecordingState) :
    (RecordingManager.start_recording dirOk now ts cfg st).1 = st ∨
    ((RecordingManager.start_recording dirOk now ts cfg st).1.status = .Recording now ∧
     (RecordingManager.start_recording dirOk now ts cfg st).1.recording_id.isSome = true ∧
     ∃ rid, (RecordingManager.start_recording dirOk now ts cfg st).2 = .ok rid) := by
  unfold RecordingManager.start_recording
  cases hst : st.status <;> cases dirOk <;> simp_all [StorageManager.new]

theorem add_participant_fields (audioOk videoOk : Bool) (now : Int) (pid name : String)
    (ra rv : Bool) (st : RecordingState) :
    (RecordingManager.add_participant audioOk videoOk now pid name ra rv st).1.status
        = st.status ∧
    (RecordingManager.add_participant audioOk videoOk now pid name ra rv st).1.config
        = st.config ∧
    (RecordingManager.add_participant audioOk videoOk now pid name ra rv st).1.storage
        = st.storage ∧
    (RecordingManager.add_participant audioOk videoOk now pid name ra rv st).1.recording_id
        = st.recording_id := by
  cases hst : st.status <;>
    simp only [RecordingManager.add_participant, hst] <;>
    try simp
  all_goals
    by_cases hmem : (lookupA pid st.tracks).isSome <;>
    cases hc : st.config <;>
    cases hsto : st.storage <;>
    cases ra <;> cases rv <;> cases audioOk <;> cases videoOk <;>
    simp [hst, hmem, hc, hsto, StorageManager.create_audio_file,
      StorageManager.create_video_file, Except.map]

theorem add_participant_unchanged_or_ok (audioOk videoOk : Bool) (now : Int)
    (pid name : String) (ra rv : Bool) (st : RecordingState) :
    (RecordingManager.add_participant audioOk videoOk now pid name ra rv st).1 = st ∨
    (RecordingManager.add_participant audioOk videoOk now pid name ra rv st).2 = .ok () := by
  cases hst : st.status <;>
    simp only [RecordingManager.add_participant, hst] <;>
    try simp
  all_goals
    by_cases hmem : (lookupA pid st.tracks).isSome <;>
    cases hc : st.config <;>
    cases hsto : st.storage <;>
    cases ra <;> cases rv <;> cases audioOk <;> cases videoOk <;>
    simp [hst, hmem, hc, hsto, StorageManager.create_audio_file,
      StorageManager.create_video_file, Except.map]

theorem add_audio_chunk_fields (pid : String) (chunk : List Nat) (st : RecordingState) :
    (RecordingManager.add_audio_chunk pid chunk st).1.status = st.status ∧
    (RecordingManager.add_audio_chunk pid chunk st).1.config = st.config ∧
    (RecordingManager.add_audio_chunk pid chunk st).1.storage = st.storage ∧
    (RecordingManager.add_audio_chunk pid chunk st).1.metadata = st.metadata ∧
    (RecordingManager.add_audio_chunk pid chunk st).1.recording_id = st.recording_id := by
  unfold RecordingManager.add_audio_chunk
  repeat' split
  all_goals simp

theorem add_video_chunk_fields (pid : String) (chunk : List Nat) (st : RecordingState) :
    (RecordingManager.add_video_chunk pid chunk st).1.status = st.status ∧
    (RecordingManager.add_video_chunk pid chunk st).1.config = st.config ∧
    (RecordingManager.add_video_chunk pid chunk st).1.storage = st.storage ∧
    (RecordingManager.add_video_chunk pid chunk st).1.metadata = st.metadata ∧
    (RecordingManager.add_video_chunk pid chunk st).1.recording_id = st.recording_id := by
  unfold RecordingManager.add_video_chunk
  repeat' split
  all_goals simp

theorem pause_fields (now : Int) (st : RecordingState) :
    (RecordingManager.pause_recording now st).1.config = st.config ∧
    (RecordingManager.pause_recording now st).1.storage = st.storage ∧
    (RecordingManager.pause_recording now st).1.tracks = st.tracks ∧
    (RecordingManager.pause_recording now st).1.metadata = st.metadata ∧
    (RecordingManager.pause_recording now st).1.recording_id = st.recording_id ∧
    ((RecordingManager.pause_recording now st).1.status = st.status ∨
      ∃ s, st.status = .Recording s ∧
        (RecordingManager.pause_recording now st).1.status = .Paused s now) := by
  unfold RecordingManager.pause_recording
  cases hst : st.status <;> simp_all

theorem resume_fields (st : RecordingState) :
    (RecordingManager.resume_recording st).1.config = st.config ∧
    (RecordingManager.resume_recording st).1.storage = st.storage ∧
    (RecordingManager.resume_recording st).1.tracks = st.tracks ∧
    (RecordingManager.resume_recording st).1.metadata = st.metadata ∧
    (RecordingManager.resume_recording st).1.recording_id = st.recording_id ∧
    ((RecordingManager.resume_recording st).1.status = st.status ∨
      ∃ s p, st.status = .Paused s p ∧
        (RecordingManager.resume_recording st).1.status = .Recording s) := by
  unfold RecordingManager.resume_recording
  cases hst : st.status <;> simp_all

theorem stop_fields (saveOk : Bool) (joins : String → JoinOutcome × JoinOutcome)
    (now : Int) (st : RecordingState) :
    (RecordingManager.stop_recording saveOk joins now st).1.recording_id
        = st.recording_id ∧
    ((RecordingManager.stop_recording saveOk joins now st).1.status = st.status ∨
      (RecordingManager.stop_recording saveOk joins now st).1.status = .Stopped) := by
  cases hst : st.status <;>
    simp only [RecordingManager.stop_recording, hst] <;>
    try simp
  all_goals
    cases hmd : st.metadata <;>
      cases hsto : st.storage <;>
      cases saveOk <;>
      simp [hmd, hsto, StorageManager.save_metadata]

theorem stop_err_of_idle_or_stopped (saveOk : Bool)
    (joins : String → JoinOutcome × JoinOutcome) (now : Int) (st : RecordingState)
    (h : st.status = .Idle ∨ st.status = .Stopped) :
    RecordingManager.stop_recording saveOk joins now st = (st, .error .NoActiveRecording) := by
  rcases h with h | h <;> simp [RecordingManager.stop_recording, h]

/-- C2: `start` succeeds only from `Idle` — from `Recording`, `Paused` or
`Stopped` it fails with `AlreadyRecording` and changes nothing; from `Idle`
with the directory creation succeeding it returns the fresh recording id
(room id plus timestamp) and sets the status to `Recording` at the current
time; and no operation whatsoever brings a manager whose status left `Idle`
back to `Idle`. -/
theorem start_only_from_idle :
    (∀ (dirOk : Bool) (now : Int) (ts : String) (cfg : RecordingConfig)
        (st : RecordingState), st.status ≠ .Idle →
        RecordingManager.start_recording dirOk now ts cfg st
          = (st, .error .AlreadyRecording)) ∧
    (∀ (now : Int) (ts : String) (cfg : RecordingConfig) (st : RecordingState),
        st.status = .Idle →
        (RecordingManager.start_recording true now ts cfg st).2
            = .ok ("recording-" ++ cfg.room_id ++ "-" ++ ts) ∧
        (RecordingManager.start_recording true now ts cfg st).1.status = .Recording now ∧
        (RecordingManager.start_recording true now ts cfg st).1.recording_id
            = some ("recording-" ++ cfg.room_id ++ "-" ++ ts)) ∧
    (∀ (op : Op) (st : RecordingState), st.status ≠ .Idle → (run op st).status ≠ .Idle) := by
  refine ⟨?_, ?_, ?_⟩
  · exact fun d n ts cfg st h => start_err_of_not_idle d n ts cfg st h
  · intro now ts cfg st h
    simp [RecordingManager.start_recording, h, StorageManager.new]
  · intro op st h
    cases op with
    | start d n ts c =>
        simp only [run, start_err_of_not_idle d n ts c st h]
        exact h
    | addParticipant aOk vOk n pid name ra rv =>
        simp only [run]
        rw [(add_participant_fields aOk vOk n pid name ra rv st).1]
        exact h
    | ingestAudio pid chunk =>
        simp only [run]
        rw [(add_audio_chunk_fields pid chunk st).1]
        exact h
    | ingestVideo pid chunk =>
        simp only [run]
        rw [(add_video_chunk_fields pid chunk st).1]
        exact h
    | pause n =>
        simp only [run]
        rcases (pause_fields n st).2.2.2.2.2 with hs | ⟨s, _, hs⟩
        · rw [hs]; exact h
        · rw [hs]; exact fun hc => RecordingStatus.noConfusion hc
    | resume =>
        simp only [run]
        rcases (resume_fields st).2.2.2.2.2 with hs | ⟨s, p, _, hs⟩
        · rw [hs]; exact h
        · rw [hs]; exact fun hc => RecordingStatus.noConfusion hc
    | stop saveOk joins n =>
        simp only [run]
        rcases (stop_fields saveOk joins n st).2 with hs | hs
        · rw [hs]; exact h
        · rw [hs]; exact fun hc => RecordingStatus.noConfusion hc

/-- Witness for C2: starting on the already-stopped sample manager is
rejected with `AlreadyRecording`, without touching the state. -/
theorem start_only_from_idle_witness :
    stA.status ≠ RecordingStatus.Idle ∧
    RecordingManager.start_recording true 9 "ts2" cfgC stA
      = (stA, .error .AlreadyRecording) :=
  ⟨by decide, start_only_from_idle.1 true 9 "ts2" cfgC stA (by decide)⟩

/-- C4: `pause` succeeds exactly from `Recording`, moving to `Paused` with
the original start time and the pause moment; `resume` succeeds exactly from
`Paused`, restoring `Recording` with the original start time; both fail with
`NoActiveRecording` from every other status, leaving the state untouched; and
along any sequence of pause/resume operations the `started_at` carried by the
status never changes. -/
theorem pause_resume_spec :
    (∀ (now : Int) (st : RecordingState) (s : Int), st.status = .Recording s →
        RecordingManager.pause_recording now st
          = ({ st with status := .Paused s now }, .ok ())) ∧
    (∀ (now : Int) (st : RecordingState), (∀ s, st.status ≠ .Recording s) →
        RecordingManager.pause_recording now st = (st, .error .NoActiveRecording)) ∧
    (∀ (st : RecordingState) (s p : Int), st.status = .Paused s p →
        RecordingManager.resume_recording st
          = ({ st with status := .Recording s }, .ok ())) ∧
    (∀ (st : RecordingState), (∀ s p, st.status ≠ .Paused s p) →
        RecordingManager.resume_recording st = (st, .error .NoActiveRecording)) ∧
    (∀ (ops : List Op) (st : RecordingState), (∀ op ∈ ops, op.isPauseResume = true) →
        statusStarted (ops.foldl (fun s op => run op s) st).status
          = statusStarted st.status) := by
  refine ⟨?_, ?_, ?_, ?_, ?_⟩
  · intro now st s h
    simp [RecordingManager.pause_recording, h]
  · intro now st h
    cases hst : st.status <;>
      simp [RecordingManager.pause_recording, hst]
    exact absurd hst (h _)
  · intro st s p h
    simp [RecordingManager.resume_recording, h]
  · intro st h
    cases hst : st.status <;>
      simp [RecordingManager.resume_recording, hst]
    exact absurd hst (h _ _)
  · intro ops
    induction ops with
    | nil => intro st _; rfl
    | cons op rest ih =>
        intro st hops
        have hop : op.isPauseResume = true := hops op (List.mem_cons_self op rest)
        have hrest : ∀ o ∈ rest, o.isPauseResume = true :=
          fun o ho => hops o (List.mem_cons_of_mem op ho)
        rw [List.foldl_cons, ih (run op st) hrest]
        cases op
        case pause n =>
          cases hst : st.status <;>
            simp [run, RecordingManager.pause_recording, hst, statusStarted]
        case resume =>
          cases hst : st.status <;>
            simp [run, RecordingManager.resume_recording, hst, statusStarted]
        all_goals simp [Op.isPauseResume] at hop

/-- Witness for C4: pausing the freshly started sample session at time 2 and
resuming it restores `Recording 0`; the pause/resume fold preserves the
status start time. -/
theorem pause_resume_spec_witness :
    stA.status = RecordingStatus.Recording 0 ∧
    RecordingManager.pause_recording 2 stA
      = ({ stA with status := .Paused 0 2 }, .ok ()) ∧
    (∀ op ∈ [Op.pause 2, Op.resume], op.isPauseResume = true) ∧
    statusStarted ([Op.pause 2, Op.resume].foldl (fun s op => run op s) stA).status
      = statusStarted stA.status :=
  ⟨by decide, pause_resume_spec.1 2 stA 0 (by decide),
    by intro op hop; fin_cases hop <;> rfl,
    pause_resume_spec.2.2.2.2 [Op.pause 2, Op.resume] stA
      (by intro op hop; fin_cases hop <;> rfl)⟩

/-- Counterexample to C7: a reachable session (start, then one participant)
on which `stop` fails — the metadata save hits an I/O error — yet the session
state has been mutated: the tracks map was emptied and the metadata taken,
while the status still says `Recording`. -/
theorem stop_error_mutates_cx :
    Reachable stB ∧
    (RecordingManager.stop_recording false joins0 5 stB).2 = .error .IoError ∧
    (RecordingManager.stop_recording false joins0 5 stB).1 ≠ stB ∧
    (RecordingManager.stop_recording false joins0 5 stB).1.tracks = [] ∧
    stB.tracks ≠ [] ∧
    (RecordingManager.stop_recording false joins0 5 stB).1.metadata = none ∧
    stB.metadata ≠ none ∧
    (RecordingManager.stop_recording false joins0 5 stB).1.status = .Recording 0 :=
  ⟨(Reachable.init.step (.start true 0 "ts" cfgC)).step
      (.addParticipant true true 1 "p1" "Alice" true false),
    rfl, by decide, rfl, by decide, rfl, by decide, rfl⟩

/-- C7 as amended: `start`, `addParticipant`, `pause` and `resume` leave the
session state exactly as it was whenever they return an error of any kind,
and `stop` does so when it fails its lifecycle precondition (status `Idle` or
`Stopped`); but a `stop` that passes the precondition and then fails saving
the metadata has already emptied the tracks map and taken the metadata. -/
theorem error_ops_preserve_state :
    (∀ (dirOk : Bool) (now : Int) (ts : String) (cfg : RecordingConfig)
        (st : RecordingState) (e : RecordingError),
        (RecordingManager.start_recording dirOk now ts cfg st).2 = .error e →
        (RecordingManager.start_recording dirOk now ts cfg st).1 = st) ∧
    (∀ (audioOk videoOk : Bool) (now : Int) (pid name : String) (ra rv : Bool)
        (st : RecordingState) (e : RecordingError),
        (RecordingManager.add_participant audioOk videoOk now pid name ra rv st).2
            = .error e →
        (RecordingManager.add_participant audioOk videoOk now pid name ra rv st).1 = st) ∧
    (∀ (now : Int) (st : RecordingState) (e : RecordingError),
        (RecordingManager.pause_recording now st).2 = .error e →
        (RecordingManager.pause_recording now st).1 = st) ∧
    (∀ (st : RecordingState) (e : RecordingError),
        (RecordingManager.resume_recording st).2 = .error e →
        (RecordingManager.resume_recording st).1 = st) ∧
    (∀ (saveOk : Bool) (joins : String → JoinOutcome × JoinOutcome) (now : Int)
        (st : RecordingState), (st.status = .Idle ∨ st.status = .Stopped) →
        RecordingManager.stop_recording saveOk joins now st
          = (st, .error .NoActiveRecording)) := by
  refine ⟨?_, ?_, ?_, ?_, ?_⟩
  · intro dirOk now ts cfg st e h
    rcases start_unchanged_or_ok dirOk now ts cfg st with h1 | ⟨_, _, rid, h2⟩
    · exact h1
    · rw [h2] at h; cases h
  · intro audioOk videoOk now pid name ra rv st e h
    rcases add_participant_unchanged_or_ok audioOk videoOk now pid name ra rv st with h1 | h2
    · exact h1
    · rw [h2] at h; cases h
  · intro now st e h
    cases hst : st.status <;>
      simp [RecordingManager.pause_recording, hst] at h ⊢
  · intro st e h
    cases hst : st.status <;>
      simp [RecordingManager.resume_recording, hst] at h ⊢
  · exact fun saveOk joins now st h => stop_err_of_idle_or_stopped saveOk joins now st h

/-- Witness for C7 as amended: starting on the already-recording sample
session errors and is the identity on state. -/
theorem error_ops_preserve_state_witness :
    (RecordingManager.start_recording true 9 "ts2" cfgC stB).2
        = .error .AlreadyRecording ∧
    (RecordingManager.start_recording true 9 "ts2" cfgC stB).1 = stB :=
  ⟨rfl, error_ops_preserve_state.1 true 9 "ts2" cfgC stB .AlreadyRecording rfl⟩

theorem merge_preserves_duration (now : Int) (rs : List TrackRecordingResult) :
    ∀ md : RecordingMetadata,
      (RecordingManager.merge_track_results now rs md).duration_seconds
        = md.duration_seconds := by
  induction rs with
  | nil => intro md; rfl
  | cons r rest ih =>
      intro md
      simp only [RecordingManager.merge_track_results, List.foldl_cons] at ih ⊢
      rw [ih]
      cases h : lookupA r.participant_id md.participants <;> simp [h]

/-- Counterexample to C3: the state reached by starting a session and then
issuing a `stop` whose metadata save failed still has status `Recording`,
yet a second `stop` on it fails with `NoActiveRecording` — so the failure
condition is not exactly status `Idle` or `Stopped`. -/
theorem stop_noactive_while_recording_cx :
    Reachable stC ∧
    stC.status = RecordingStatus.Recording 0 ∧
    (RecordingManager.stop_recording true joins0 9 stC).2 = .error .NoActiveRecording :=
  ⟨((Reachable.init.step (.start true 0 "ts" cfgC)).step
      (.addParticipant true true 1 "p1" "Alice" true false)).step (.stop false joins0 5),
    rfl, rfl⟩

/-- C3 as amended: `stop` fails with `NoActiveRecording` when the status is
`Idle` or `Stopped` (leaving the state untouched), and also in the degenerate
state — reachable only through a previous `stop` whose metadata save failed —
where the status is still active but the metadata has already been taken.
From an active status with metadata present and a successful save, it returns
metadata whose `duration_seconds` is the stop time minus the status's
`started_at`, floored at zero and with pauses not subtracted (a pause/resume
pair before the stop leaves the whole result unchanged), and the final state
is `Stopped` with config, storage and metadata cleared. -/
theorem stop_spec_amended (saveOk : Bool) (joins : String → JoinOutcome × JoinOutcome)
    (now : Int) (st : RecordingState) :
    ((st.status = .Idle ∨ st.status = .Stopped) →
        RecordingManager.stop_recording saveOk joins now st
          = (st, .error .NoActiveRecording)) ∧
    (st.status.isActive = true → st.metadata = none →
        (RecordingManager.stop_recording saveOk joins now st).2
          = .error .NoActiveRecording) ∧
    (∀ s, st.status = .Recording s → st.metadata.isSome = true → saveOk = true →
        ∃ md, (RecordingManager.stop_recording saveOk joins now st).2 = .ok md ∧
          md.duration_seconds = (now - s).toNat ∧
          (RecordingManager.stop_recording saveOk joins now st).1.status = .Stopped ∧
          (RecordingManager.stop_recording saveOk joins now st).1.config = none ∧
          (RecordingManager.stop_recording saveOk joins now st).1.storage = none ∧
          (RecordingManager.stop_recording saveOk joins now st).1.metadata = none) ∧
    (∀ s p, st.status = .Paused s p → st.metadata.isSome = true → saveOk = true →
        ∃ md, (RecordingManager.stop_recording saveOk joins now st).2 = .ok md ∧
          md.duration_seconds = (now - s).toNat ∧
          (RecordingManager.stop_recording saveOk joins now st).1.status = .Stopped ∧
          (RecordingManager.stop_recording saveOk joins now st).1.config = none ∧
          (RecordingManager.stop_recording saveOk joins now st).1.storage = none ∧
          (RecordingManager.stop_recording saveOk joins now st).1.metadata = none) ∧
    (∀ s tp, st.status = .Recording s →
        RecordingManager.stop_recording saveOk joins now
            (RecordingManager.resume_recording
              (RecordingManager.pause_recording tp st).1).1
          = RecordingManager.stop_recording saveOk joins now st) := by
  refine ⟨?_, ?_, ?_, ?_, ?_⟩
  · exact stop_err_of_idle_or_stopped saveOk joins now st
  · intro hact hmd
    cases hst : st.status <;> rw [hst] at hact <;>
      simp [RecordingStatus.isActive] at hact <;>
      simp [RecordingManager.stop_recording, hst, hmd]
  · intro s hst hmd hsave
    subst hsave
    obtain ⟨md0, hmd0⟩ := Option.isSome_iff_exists.mp hmd
    cases hsto : st.storage <;>
      simp [RecordingManager.stop_recording, hst, hmd0, hsto,
        StorageManager.save_metadata, merge_preserves_duration]
  · intro s p hst hmd hsave
    subst hsave
    obtain ⟨md0, hmd0⟩ := Option.isSome_iff_exists.mp hmd
    cases hsto : st.storage <;>
      simp [RecordingManager.stop_recording, hst, hmd0, hsto,
        StorageManager.save_metadata, merge_preserves_duration]
  · intro s tp hst
    have h1 : (RecordingManager.pause_recording tp st).1
        = { st with status := .Paused s tp } := by
      simp [RecordingManager.pause_recording, hst]
    have h2 : (RecordingManager.resume_recording { st with status := .Paused s tp }).1
        = { st with status := .Recording s } := by
      simp [RecordingManager.resume_recording]
    have h3 : { st with status := .Recording s } = st := by
      obtain ⟨a, b, c, d, e, f⟩ := st
      simp only at hst
      rw [hst]
    rw [h1, h2, h3]

/-- Witness for C3 as amended: stopping the sample session at time 7 yields
duration 7 and a fully cleared state, and doing so after a pause at 2 and a
resume changes nothing. -/
theorem stop_spec_amended_witness :
    stB.status = RecordingStatus.Recording 0 ∧ stB.metadata.isSome = true ∧
    (∃ md, (RecordingManager.stop_recording true joins0 7 stB).2 = .ok md ∧
      md.duration_seconds = ((7 : Int) - 0).toNat ∧
      (RecordingManager.stop_recording true joins0 7 stB).1.status = .Stopped ∧
      (RecordingManager.stop_recording true joins0 7 stB).1.config = none ∧
      (RecordingManager.stop_recording true joins0 7 stB).1.storage = none ∧
      (RecordingManager.stop_recording true joins0 7 stB).1.metadata = none) ∧
    RecordingManager.stop_recording true joins0 7
        (RecordingManager.resume_recording
          (RecordingManager.pause_recording 2 stB).1).1
      = RecordingManager.stop_recording true joins0 7 stB :=
  ⟨by decide, by decide,
    (stop_spec_amended true joins0 7 stB).2.2.1 0 (by decide) (by decide) rfl,
    (stop_spec_amended true joins0 7 stB).2.2.2.2 0 2 (by decide)⟩

theorem reachable_active_rid {st : RecordingState} (h : Reachable st) :
    st.status.isActive = true → st.recording_id.isSome = true := by
  induction h with
  | init => intro hact; simp [initialState, RecordingStatus.isActive] at hact
  | @step st hr op ih =>
      intro hact
      cases op with
      | start d n ts c =>
          rcases start_unchanged_or_ok d n ts c st with h1 | ⟨_, hrid, _⟩
          · simp only [run] at hact ⊢
            rw [h1] at hact ⊢
            exact ih hact
          · simp only [run] at hact ⊢
            exact hrid
      | addParticipant aOk vOk n pid name ra rv =>
          simp only [run] at hact ⊢
          rw [(add_participant_fields aOk vOk n pid name ra rv st).2.2.2]
          rw [(add_participant_fields aOk vOk n pid name ra rv st).1] at hact
          exact ih hact
      | ingestAudio pid chunk =>
          simp only [run] at hact ⊢
          rw [(add_audio_chunk_fields pid chunk st).2.2.2.2]
          rw [(add_audio_chunk_fields pid chunk st).1] at hact
          exact ih hact
      | ingestVideo pid chunk =>
          simp only [run] at hact ⊢
          rw [(add_video_chunk_fields pid chunk st).2.2.2.2]
          rw [(add_video_chunk_fields pid chunk st).1] at hact
          exact ih hact
      | pause n =>
          simp only [run] at hact ⊢
          rw [(pause_fields n st).2.2.2.2.1]
          apply ih
          rcases (pause_fields n st).2.2.2.2.2 with hs | ⟨s, hpre, _⟩
          · rw [hs] at hact; exact hact
          · rw [hpre]; rfl
      | resume =>
          simp only [run] at hact ⊢
          rw [(resume_fields st).2.2.2.2.1]
          apply ih
          rcases (resume_fields st).2.2.2.2.2 with hs | ⟨s, p, hpre, _⟩
          · rw [hs] at hact; exact hact
          · rw [hpre]; rfl
      | stop saveOk joins n =>
          simp only [run] at hact ⊢
          rw [(stop_fields saveOk joins n st).1]
          apply ih
          rcases (stop_fields saveOk joins n st).2 with hs | hs
          · rw [hs] at hact; exact hact
          · rw [hs] at hact; simp [RecordingStatus.isActive] at hact

/-- C10: after a successful `stop` on a reachable session, the accessors are
asymmetric — `get_metadata` returns `none` (the metadata was taken and handed
to the caller), while `get_recording_id` still returns the `some` id of the
just-stopped session (the field is never cleared) and `get_status` returns
`Stopped`. -/
theorem stop_accessor_spec (saveOk : Bool) (joins : String → JoinOutcome × JoinOutcome)
    (now : Int) (st : RecordingState) (md : RecordingMetadata)
    (hreach : Reachable st)
    (h : (RecordingManager.stop_recording saveOk joins now st).2 = .ok md) :
    RecordingManager.get_metadata
        (RecordingManager.stop_recording saveOk joins now st).1 = none ∧
    RecordingManager.get_status
        (RecordingManager.stop_recording saveOk joins now st).1 = .Stopped ∧
    RecordingManager.get_recording_id
        (RecordingManager.stop_recording saveOk joins now st).1
      = RecordingManager.get_recording_id st ∧
    (RecordingManager.get_recording_id
        (RecordingManager.stop_recording saveOk joins now st).1).isSome = true := by
  cases hst : st.status
  case Idle =>
      rw [stop_err_of_idle_or_stopped saveOk joins now st (Or.inl hst)] at h
      cases h
  case Stopped =>
      rw [stop_err_of_idle_or_stopped saveOk joins now st (Or.inr hst)] at h
      cases h
  case Recording s =>
      have hrid : st.recording_id.isSome = true :=
        reachable_active_rid hreach (by rw [hst]; rfl)
      cases hmd : st.metadata with
      | none => simp [RecordingManager.stop_recording, hst, hmd] at h
      | some md0 =>
          cases hsto : st.storage with
          | none =>
              simp [RecordingManager.stop_recording, hst, hmd, hsto,
                RecordingManager.get_metadata, RecordingManager.get_status,
                RecordingManager.get_recording_id, hrid]
          | some sto =>
              cases saveOk with
              | false =>
                  simp [RecordingManager.stop_recording, hst, hmd, hsto,
                    StorageManager.save_metadata] at h
              | true =>
                  simp [RecordingManager.stop_recording, hst, hmd, hsto,
                    StorageManager.save_metadata, RecordingManager.get_metadata,
                    RecordingManager.get_status, RecordingManager.get_recording_id, hrid]
  case Paused s p =>
      have hrid : st.recording_id.isSome = true :=
        reachable_active_rid hreach (by rw [hst]; rfl)
      cases hmd : st.metadata with
      | none => simp [RecordingManager.stop_recording, hst, hmd] at h
      | some md0 =>
          cases hsto : st.storage with
          | none =>
              simp [RecordingManager.stop_recording, hst, hmd, hsto,
                RecordingManager.get_metadata, RecordingManager.get_status,
                RecordingManager.get_recording_id, hrid]
          | some sto =>
              cases saveOk with
              | false =>
                  simp [RecordingManager.stop_recording, hst, hmd, hsto,
                    StorageManager.save_metadata] at h
              | true =>
                  simp [RecordingManager.stop_recording, hst, hmd, hsto,
                    StorageManager.save_metadata, RecordingManager.get_metadata,
                    RecordingManager.get_status, RecordingManager.get_recording_id, hrid]

/-- Witness for C10 on the sample session: stop at time 7 succeeds, after
which the metadata accessor is empty but the id accessor still answers. -/
theorem stop_accessor_spec_witness :
    (RecordingManager.stop_recording true joins0 7 stB).2 = .ok mdW ∧
    RecordingManager.get_metadata
        (RecordingManager.stop_recording true joins0 7 stB).1 = none ∧
    RecordingManager.get_recording_id
        (RecordingManager.stop_recording true joins0 7 stB).1
      = RecordingManager.get_recording_id stB ∧
    (RecordingManager.get_recording_id
        (RecordingManager.stop_recording true joins0 7 stB).1).isSome = true :=
  have hr : Reachable stB :=
    (Reachable.init.step (.start true 0 "ts" cfgC)).step
      (.addParticipant true true 1 "p1" "Alice" true false)
  have hres := stop_accessor_spec true joins0 7 stB mdW hr rfl
  ⟨rfl, hres.1, hres.2.2.1, hres.2.2.2⟩

end PodcastRecorder
